import Mathlib

/-!
# Secure PDF viewer — verification of the spec against the source

Shallow embedding of the security-relevant parts of the repository:

* `backend/middleware/authMiddleware.js` — the Access Gate (C1);
* the `useSecurityLayers` hook (bundled with
  `backend/controllers/authController.js`) — keyboard classifier (C2),
  aggregate `isSecure` flag (C3), violation banner (C4), PrintScreen
  handling (C5), DevTools polling (C6), delayed show-content timer (C7),
  keyboard layer attach/detach (C8), focus layer (C10);
* the Cloudinary access probe script (`src/unnamed/part_000`) — signed-URL
  combination probing (C9).

JavaScript machine behaviour relevant here is value-level only: string
operations, `||`-defaulting (empty string is falsy), truthiness of an
optional string, and the single-threaded event loop (timers modelled as
explicit scheduled actions).  Fallible operations are `Except`.
-/

namespace SecurePdfViewer

/-! ## Access Gate (`backend/middleware/authMiddleware.js`) -/

/-- Decoded identity token returned by `admin.auth().verifyIdToken`;
only the `uid` field is consulted by the middleware. -/
structure DecodedToken where
  uid : String
  deriving DecidableEq, Repr

/-- A user record from `db.collection('users')`.  The middleware reads
`disabled` and `disabledReason`. -/
structure UserRecord where
  disabled : Bool
  disabledReason : Option String
  deriving DecidableEq, Repr

/-- Outcome of the middleware on one request: respond 401, respond 403 with
a `reason` string, or call `next()` (the downstream handler runs only in
the `proceed` case). -/
inductive GateResult where
  | unauthorized
  | forbidden (reason : String)
  | proceed
  deriving DecidableEq, Repr

/-- JavaScript `a || b` on an optional string `a`: `null`/`undefined` and
the empty string are falsy, so they fall through to the default. -/
def jsStringOr (a : Option String) (b : String) : String :=
  match a with
  | none => b
  | some s => if s.isEmpty then b else s

/-- JavaScript `s.startsWith(p)`, character-level: the first `p.length`
characters of `s` are exactly `p`. -/
def jsStartsWith (s p : String) : Bool :=
  s.data.take p.data.length == p.data

/-- JavaScript `s.split(' ')`: split at every single space, no collapsing
of adjacent separators.  `acc` holds the current field, reversed. -/
def splitOnSpaceAux : List Char → List Char → List (List Char)
  | [], acc => [acc.reverse]
  | c :: rest, acc =>
    if c = ' ' then acc.reverse :: splitOnSpaceAux rest []
    else splitOnSpaceAux rest (c :: acc)

/-- `authHeader.split(' ')[1]` — the token part of a `Bearer ` header
(`""` standing for JS `undefined` when there is no second field). -/
def bearerTokenOf (header : String) : String :=
  ⟨(splitOnSpaceAux header.data []).getD 1 []⟩

/-- `authMiddleware` from `backend/middleware/authMiddleware.js`, lines 3–35.
`verify` stands for `admin.auth().verifyIdToken` (any verification error —
expired, malformed, bad signature — is the `Except.error` case, caught by
the middleware's `try`/`catch` which answers 401); `lookup` stands for the
`users` collection read (`none` when `userDoc.exists` is false).  A header
that is absent, empty, or does not start with `"Bearer "` is rejected with
401 before verification. -/
def authMiddleware (authHeader : Option String)
    (verify : String → Except String DecodedToken)
    (lookup : String → Option UserRecord) : GateResult :=
  match authHeader with
  | none => .unauthorized
  | some header =>
    if jsStartsWith header "Bearer " then
      match verify (bearerTokenOf header) with
      | .error _ => .unauthorized
      | .ok decoded =>
        match lookup decoded.uid with
        | some u =>
          if u.disabled then
            .forbidden (jsStringOr u.disabledReason "Terms verification pending")
          else .proceed
        | none => .proceed
    else .unauthorized

/-- C1 — Access Gate.  A missing or non-`Bearer` Authorization header yields
401; any token-verification failure yields 401; a verified token whose user
record has `disabled = true` yields 403 whose reason is the record's
`disabledReason` (JS `||`-defaulted to "Terms verification pending"), and
the downstream handler never runs (the result is `forbidden`, not
`proceed`); a verified token with no user record, or a record with
`disabled` false, proceeds to the downstream handler. -/
theorem accessGate_classification :
    (∀ verify lookup, authMiddleware none verify lookup = .unauthorized) ∧
    (∀ header verify lookup, ¬ jsStartsWith header "Bearer " →
      authMiddleware (some header) verify lookup = .unauthorized) ∧
    (∀ header verify lookup e, jsStartsWith header "Bearer " →
      verify (bearerTokenOf header) = .error e →
      authMiddleware (some header) verify lookup = .unauthorized) ∧
    (∀ header verify lookup decoded u, jsStartsWith header "Bearer " →
      verify (bearerTokenOf header) = .ok decoded →
      lookup decoded.uid = some u → u.disabled = true →
      authMiddleware (some header) verify lookup =
        .forbidden (jsStringOr u.disabledReason "Terms verification pending")) ∧
    (∀ header verify lookup decoded, jsStartsWith header "Bearer " →
      verify (bearerTokenOf header) = .ok decoded →
      (lookup decoded.uid = none ∨
        ∃ u, lookup decoded.uid = some u ∧ u.disabled = false) →
      authMiddleware (some header) verify lookup = .proceed) := by
  refine ⟨fun _ _ => rfl, ?_, ?_, ?_, ?_⟩
  · intro header verify lookup h
    simp [authMiddleware, h]
  · intro header verify lookup e hb hv
    simp [authMiddleware, hb, hv]
  · intro header verify lookup decoded u hb hv hl hd
    simp [authMiddleware, hb, hv, hl, hd]
  · intro header verify lookup decoded hb hv hl
    rcases hl with hl | ⟨u, hl, hd⟩
    · simp [authMiddleware, hb, hv, hl]
    · simp [authMiddleware, hb, hv, hl, hd]

/-- Concrete verifier for the C1 witness: token "good" decodes to uid "u1",
everything else fails verification. -/
def witVerify : String → Except String DecodedToken :=
  fun t => if t = "good" then .ok ⟨"u1"⟩ else .error "invalid token"

/-- Concrete user store for the C1 witness: "u1" is disabled with a reason,
"u2" is disabled with no reason recorded, other uids have no record. -/
def witLookup : String → Option UserRecord :=
  fun uid =>
    if uid = "u1" then some ⟨true, some "Policy violation"⟩
    else if uid = "u2" then some ⟨true, none⟩
    else none

/-- Witness for C1 at concrete inputs: a disabled record's reason is
surfaced in the 403. -/
theorem accessGate_classification_witness :
    authMiddleware (some "Bearer good") witVerify witLookup =
      .forbidden "Policy violation" :=
  accessGate_classification.2.2.2.1 "Bearer good" witVerify witLookup
    ⟨"u1"⟩ ⟨true, some "Policy violation"⟩ (by decide) rfl rfl rfl


/-! ## Event Classifier (`useSecurityLayers` — `handleKeyDown`, keyboard layer) -/

/-- JavaScript `s.toLowerCase()`, character-level. -/
def jsToLower (s : String) : String :=
  ⟨s.data.map Char.toLower⟩

/-- A keydown event descriptor: the fields of the DOM `KeyboardEvent` the
keyboard layer reads. -/
structure KeyEvent where
  key : String
  ctrlKey : Bool
  metaKey : Bool
  shiftKey : Bool
  deriving DecidableEq, Repr

/-- One entry of the `blockedCombinations` table.  In the source the
`shift` field is absent on the non-shift rules; absent reads as
`undefined`, which is falsy, so it is modelled as `false`. -/
structure BlockedCombo where
  ctrl : Bool
  shift : Bool
  key : String
  action : String
  deriving DecidableEq, Repr

/-- The `blockedCombinations` table from `handleKeyDown`, in source order. -/
def blockedCombinations : List BlockedCombo :=
  [⟨true, false, "p", "print"⟩,
   ⟨true, false, "s", "save"⟩,
   ⟨true, false, "c", "copy"⟩,
   ⟨true, false, "a", "select_all"⟩,
   ⟨true, false, "u", "view_source"⟩,
   ⟨true, true, "i", "devtools"⟩,
   ⟨true, true, "j", "devtools"⟩,
   ⟨true, true, "c", "devtools"⟩,
   ⟨true, true, "s", "screenshot"⟩]

/-- Classifier verdict: let the event through, or block it with an action
tag (the side effects — preventDefault, logging, banner — belong to the
caller). -/
inductive Verdict where
  | allow
  | block (action : String)
  deriving DecidableEq, Repr

/-- The per-rule test from the source loop:
`ctrlMatch && shiftMatch && keyMatch` where
`ctrlMatch = combo.ctrl ? isCtrl : true`,
`shiftMatch = combo.shift ? isShift : !isShift`,
`keyMatch = key === combo.key`. -/
def comboMatches (isCtrl isShift : Bool) (key : String) (c : BlockedCombo) : Bool :=
  (if c.ctrl then isCtrl else true) &&
    (if c.shift then isShift else !isShift) && (key == c.key)

/-- The classification fragment of `handleKeyDown` (source lines 150–191):
lower-case the key, fold ctrl and meta into one flag, scan the
`blockedCombinations` table first-match-wins, and fall through to the
`e.key === 'F12'` check.  (PrintScreen and Meta handling come after this
fragment and are modelled with the effectful handler below.) -/
def classifyKeydown (e : KeyEvent) : Verdict :=
  let key := jsToLower e.key
  let isCtrl := e.ctrlKey || e.metaKey
  let isShift := e.shiftKey
  match blockedCombinations.find? (comboMatches isCtrl isShift key) with
  | some c => .block c.action
  | none => if e.key == "F12" then .block "devtools" else .allow

/-- The classifier as the claim words it: an ordered rule list —
print (ctrl+P), save (ctrl+S), copy (ctrl+C), select-all (ctrl+A),
view-source (ctrl+U), DevTools (ctrl+shift+I/J/C), screenshot
(ctrl+shift+S), and the bare-key F12 rule — first-matching-rule-wins,
ctrl/meta required on the ctrl rules, shift required-present on the shift
rules and required-absent on the others; the F12 rule is keyed on the raw
`F12` key alone (no modifier requirement); every other descriptor is
`allow`. -/
def claimClassify (e : KeyEvent) : Verdict :=
  let ctrl := e.ctrlKey || e.metaKey
  let shift := e.shiftKey
  let k := jsToLower e.key
  if ctrl && !shift && (k == "p") then .block "print"
  else if ctrl && !shift && (k == "s") then .block "save"
  else if ctrl && !shift && (k == "c") then .block "copy"
  else if ctrl && !shift && (k == "a") then .block "select_all"
  else if ctrl && !shift && (k == "u") then .block "view_source"
  else if ctrl && shift && (k == "i" || k == "j" || k == "c") then .block "devtools"
  else if ctrl && shift && (k == "s") then .block "screenshot"
  else if e.key == "F12" then .block "devtools"
  else .allow

set_option maxHeartbeats 1000000 in
/-- C2 — Event Classifier.  For every keydown descriptor the source
classifier agrees with the claim rule list: a descriptor matching a
listed blocked combination (first-matching-rule-wins, ctrl/meta required
where listed, shift required-present or required-absent, F12 keyed alone)
is blocked with that rule action tag, and every other descriptor is
allowed. -/
theorem eventClassifier_matches_claim (e : KeyEvent) :
    classifyKeydown e = claimClassify e := by
  unfold classifyKeydown claimClassify
  cases hc : e.ctrlKey <;> cases hm : e.metaKey <;> cases hs : e.shiftKey <;>
    simp [blockedCombinations, comboMatches, List.find?] <;>
    by_cases h1 : jsToLower e.key = "p" <;>
    by_cases h2 : jsToLower e.key = "s" <;>
    by_cases h3 : jsToLower e.key = "c" <;>
    by_cases h4 : jsToLower e.key = "a" <;>
    by_cases h5 : jsToLower e.key = "u" <;>
    by_cases h6 : jsToLower e.key = "i" <;>
    by_cases h7 : jsToLower e.key = "j" <;>
    first
    | rfl
    | simp_all [beq_eq_decide]

/-! ## Security Monitor state and the aggregate `isSecure` flag -/

/-- JavaScript `action.replace('_', ' ')`: `String.prototype.replace` with
a string pattern replaces only the first occurrence. -/
def replaceFirstUnderscore : List Char → List Char
  | [] => []
  | c :: rest => if c = '_' then ' ' :: rest else c :: replaceFirstUnderscore rest

/-- The banner label built from a blocked action tag:
`combo.action.replace('_', ' ')`. -/
def actionLabel (action : String) : String :=
  ⟨replaceFirstUnderscore action.data⟩

/-- The monitor state kept by the hook: `isFocused`, `devToolsOpen` and
`securityViolation` (the `useState` cells read by `isSecure`). -/
structure SecState where
  isFocused : Bool
  devToolsOpen : Bool
  securityViolation : Option String
  deriving DecidableEq, Repr

/-- Hook start state: `useState(true)`, `useState(false)`, `useState(null)`. -/
def initialSecState : SecState := ⟨true, false, none⟩

/-- JS truthiness of the `securityViolation` value as read by
`!securityViolation`: `null` and the empty string are falsy, every other
string is truthy. -/
def optStringTruthy : Option String → Bool
  | none => false
  | some s => !s.data.isEmpty

/-- `const isSecure = isFocused && !devToolsOpen && !securityViolation`
(source line 437), with JS truthiness of the violation cell. -/
def isSecure (s : SecState) : Bool :=
  s.isFocused && !s.devToolsOpen && !(optStringTruthy s.securityViolation)

/-- The state updates the monitor layers perform, in the hook itself:
`setIsFocused` (focus layer), `setDevToolsOpen` (devtools layer), the five
`showViolation` call sites with their literal messages, and the 3000 ms
banner timer firing (`setSecurityViolation(null)`). -/
inductive SecUpdate where
  | setFocused (b : Bool)
  | setDevToolsOpen (b : Bool)
  | showViolationContextMenu
  | showViolationKeyboard (action : String)
  | showViolationF12
  | showViolationPrintScreen
  | showViolationCopy
  | violationTimerFired

/-- One state transition per update, exactly the `setX` calls the source
performs at each site. -/
def applyUpdate (s : SecState) : SecUpdate → SecState
  | .setFocused b => { s with isFocused := b }
  | .setDevToolsOpen b => { s with devToolsOpen := b }
  | .showViolationContextMenu =>
    { s with securityViolation := some "Right-click is disabled" }
  | .showViolationKeyboard a =>
    { s with securityViolation := some (actionLabel a ++ " is disabled") }
  | .showViolationF12 =>
    { s with securityViolation := some "Developer tools are disabled" }
  | .showViolationPrintScreen =>
    { s with securityViolation := some "Screenshots are disabled" }
  | .showViolationCopy =>
    { s with securityViolation := some "Copying is disabled" }
  | .violationTimerFired => { s with securityViolation := none }

/-- An arbitrary interleaving of focus, devtools and violation updates. -/
def runUpdates (s : SecState) (us : List SecUpdate) : SecState :=
  us.foldl applyUpdate s

/-- Every violation message the monitor ever stores is a non-empty string,
so JS truthiness of the cell coincides with the `isNone` test. -/
lemma runUpdates_violation_ne_empty (s : SecState) (us : List SecUpdate)
    (h : ∀ m, s.securityViolation = some m → m.data ≠ []) :
    ∀ m, (runUpdates s us).securityViolation = some m → m.data ≠ [] := by
  induction us generalizing s with
  | nil => exact h
  | cons u rest ih =>
    refine ih (applyUpdate s u) ?_
    intro m hm
    cases u with
    | setFocused b => exact h m hm
    | setDevToolsOpen b => exact h m hm
    | showViolationContextMenu =>
      simp only [applyUpdate] at hm
      cases hm; decide
    | showViolationKeyboard a =>
      simp only [applyUpdate] at hm
      cases hm
      intro hempty
      have : (actionLabel a ++ " is disabled").data =
          (actionLabel a).data ++ " is disabled".data := String.data_append ..
      rw [this] at hempty
      exact absurd (List.append_eq_nil.mp hempty).2 (by decide)
    | showViolationF12 =>
      simp only [applyUpdate] at hm
      cases hm; decide
    | showViolationPrintScreen =>
      simp only [applyUpdate] at hm
      cases hm; decide
    | showViolationCopy =>
      simp only [applyUpdate] at hm
      cases hm; decide
    | violationTimerFired => simp [applyUpdate] at hm

/-- C3 — Security Monitor invariant.  At every state reachable from the
hook start state, under any interleaving of focus, devtools and violation
updates, `isSecure` equals
`isFocused ∧ ¬devToolsSuspected ∧ (activeViolationMessage = none)`; it is
computed purely from the current sub-flags, with no hidden accumulation. -/
theorem isSecure_invariant (us : List SecUpdate) :
    isSecure (runUpdates initialSecState us) =
      ((runUpdates initialSecState us).isFocused &&
        !(runUpdates initialSecState us).devToolsOpen &&
        (runUpdates initialSecState us).securityViolation.isNone) := by
  have hne := runUpdates_violation_ne_empty initialSecState us
    (by intro m hm; simp [initialSecState] at hm)
  unfold isSecure
  cases hv : (runUpdates initialSecState us).securityViolation with
  | none => simp [optStringTruthy, hv]
  | some m =>
    have hm := hne m hv
    simp [optStringTruthy, hv, List.isEmpty_iff, hm]


/-! ## Violation banner timing (`showViolation`, source lines 118–121)

`showViolation(message)` runs `setSecurityViolation(message)` and
`setTimeout(() => setSecurityViolation(null), 3000)`.  The pending timer is
never stored and never cancelled: a later `showViolation` overwrites the
message but the earlier 3000 ms timer still fires and nulls whatever
message is current at that moment.

The event-loop denotation: given the (chronologically ordered) list of
`showViolation` calls as `(time, message)` pairs, the banner cell at query
time `t` holds the message of the last call at or before `t`, unless some
call scheduled a clear (its time + 3000) that fires after that last call
and at or before `t`.  A clear firing at exactly the instant of a
synchronous set is processed before the set (the set wins the cell). -/

/-- Banner cell contents at time `t` under the source semantics
(uncancelled 3000 ms clear timers, message cell last-write-wins). -/
def bannerVisibleAt (triggers : List (Nat × String)) (t : Nat) : Option String :=
  match (triggers.filter fun p => decide (p.1 ≤ t)).getLast? with
  | none => none
  | some last =>
    if triggers.any fun p => decide (p.1 + 3000 ≤ t) && decide (last.1 < p.1 + 3000)
    then none
    else some last.2

/-- Banner cell contents at time `t` as the claim words it: the banner
shows the last message triggered at or before `t` and auto-clears exactly
3000 ms after its last (re)trigger — a re-trigger restarts the clock. -/
def bannerClaimSemantics (triggers : List (Nat × String)) (t : Nat) : Option String :=
  match (triggers.filter fun p => decide (p.1 ≤ t)).getLast? with
  | none => none
  | some last => if t < last.1 + 3000 then some last.2 else none

/-- C4 counterexample.  Two violations 2000 ms apart: the first trigger's
un-cancelled timer fires at t = 3000 and clears the second message after
only 1000 ms of visibility, where the claim predicts it stays visible
until t = 5000. -/
theorem bannerTimer_counterexample :
    bannerVisibleAt [(0, "Right-click is disabled"), (2000, "Copying is disabled")] 3000
        = none ∧
      bannerClaimSemantics [(0, "Right-click is disabled"), (2000, "Copying is disabled")] 3000
        = some "Copying is disabled" := by
  constructor <;> rfl

/-- C4 amended.  First part — an ISOLATED violation: its banner is visible
from the trigger through the whole window and clears exactly 3000 ms after
the trigger (visible for every `t0 ≤ t < t0 + 3000`, gone for every
`t ≥ t0 + 3000`).  Second part — two violations where the second lands
inside the first's 3000 ms window: before the second trigger the first
message shows; from the second trigger the newer message overwrites it
(last-write-wins, one banner); but the clock is NOT restarted — the banner
clears when the FIRST trigger's timer fires, 3000 ms after the first
trigger, so the newest message can be visible for less than 3000 ms. -/
theorem bannerTimer_amended :
    (∀ (t0 t : Nat) (m0 : String), t0 ≤ t → t < t0 + 3000 →
      bannerVisibleAt [(t0, m0)] t = some m0) ∧
    (∀ (t0 t : Nat) (m0 : String), t0 + 3000 ≤ t →
      bannerVisibleAt [(t0, m0)] t = none) ∧
    (∀ (t1 t2 t : Nat) (m1 m2 : String), t1 < t2 → t2 < t1 + 3000 →
      (t1 ≤ t → t < t2 → bannerVisibleAt [(t1, m1), (t2, m2)] t = some m1) ∧
      (t2 ≤ t → t < t1 + 3000 → bannerVisibleAt [(t1, m1), (t2, m2)] t = some m2) ∧
      (t1 + 3000 ≤ t → bannerVisibleAt [(t1, m1), (t2, m2)] t = none)) := by
  refine ⟨?_, ?_, ?_⟩
  · intro t0 t m0 ha hb
    have h1 : ¬ t0 + 3000 ≤ t := by omega
    simp [bannerVisibleAt, ha, h1]
  · intro t0 t m0 ha
    have h0 : t0 ≤ t := by omega
    simp [bannerVisibleAt, ha, h0]
  · intro t1 t2 t m1 m2 h12 hwin
    refine ⟨?_, ?_, ?_⟩
    · intro ha hb
      have h1 : ¬ t2 ≤ t := by omega
      have h2 : ¬ t1 + 3000 ≤ t := by omega
      have h3 : ¬ t2 + 3000 ≤ t := by omega
      simp [bannerVisibleAt, ha, h1, h2, h3]
    · intro ha hb
      have h0 : t1 ≤ t := by omega
      have h2 : ¬ t1 + 3000 ≤ t := by omega
      have h3 : ¬ t2 + 3000 ≤ t := by omega
      simp [bannerVisibleAt, ha, h0, h2, h3]
    · intro ha
      have h0 : t1 ≤ t := by omega
      have h1 : t2 ≤ t := by omega
      have h2 : t2 < t1 + 3000 := by omega
      simp [bannerVisibleAt, ha, h0, h1, h2]

/-- Witness for C4 amended at concrete times.  Isolated violation at 0:
still visible at t = 2999, clear at exactly t = 3000.  Burst with triggers
at 0 and 2000: at t = 2500 the second message shows; at t = 3200 the
banner is already clear. -/
theorem bannerTimer_amended_witness :
    bannerVisibleAt [(0, "select all is disabled")] 2999
        = some "select all is disabled" ∧
      bannerVisibleAt [(0, "select all is disabled")] 3000 = none ∧
      bannerVisibleAt [(0, "save is disabled"), (2000, "print is disabled")] 2500
        = some "print is disabled" ∧
      bannerVisibleAt [(0, "save is disabled"), (2000, "print is disabled")] 3200
        = none :=
  ⟨bannerTimer_amended.1 0 2999 "select all is disabled" (by decide) (by decide),
    bannerTimer_amended.2.1 0 3000 "select all is disabled" (by decide),
    (bannerTimer_amended.2.2 0 2000 2500 "save is disabled" "print is disabled"
      (by decide) (by decide)).2.1 (by decide) (by decide),
    (bannerTimer_amended.2.2 0 2000 3200 "save is disabled" "print is disabled"
      (by decide) (by decide)).2.2 (by decide)⟩


/-! ## Keyboard layer side effects (`handleKeyDown` and the keyup listener) -/

/-- Observable side effects of the keyboard layer handlers, in execution
order: `e.preventDefault()`, `e.stopPropagation()`, `hideContentInstantly()`,
the best-effort `navigator.clipboard.writeText` attempt, `logEvent(...)`,
`showViolation(...)`, and `setTimeout(showContent, delayMs)`. -/
inductive Effect where
  | preventDefault
  | stopPropagation
  | hideInstantly
  | clipboardAttempt
  | emit (kind : String)
  | emitKeyboardBlocked (action key : String)
  | raiseViolation (msg : String)
  | scheduleShow (delayMs : Nat)
  deriving DecidableEq, Repr

/-- The `try { navigator.clipboard.writeText(...) } catch (err) { }` block:
the attempt is made, and a failure is discarded by the empty catch — the
effect trace is the same whether the write succeeds or throws, and no
error escapes. -/
def clipboardOverwriteAttempt (result : Except String Unit) : List Effect :=
  match result with
  | .ok _ => [.clipboardAttempt]
  | .error _ => [.clipboardAttempt]

/-- The full `handleKeyDown` handler (source lines 150–223) as an effect
trace: the blocked-combination loop, the F12 check, the PrintScreen
special case, and the Meta/OS hide. -/
def handleKeyDownEffects (e : KeyEvent) (clip : Except String Unit) : List Effect :=
  let key := jsToLower e.key
  let isCtrl := e.ctrlKey || e.metaKey
  let isShift := e.shiftKey
  match blockedCombinations.find? (comboMatches isCtrl isShift key) with
  | some c =>
    [.preventDefault, .stopPropagation, .emitKeyboardBlocked c.action e.key,
     .raiseViolation (actionLabel c.action ++ " is disabled")]
  | none =>
    if e.key == "F12" then
      [.preventDefault, .stopPropagation, .emitKeyboardBlocked "devtools" "F12",
       .raiseViolation "Developer tools are disabled"]
    else if e.key == "PrintScreen" then
      [.preventDefault, .stopPropagation, .hideInstantly] ++
        clipboardOverwriteAttempt clip ++
        [.emit "PRINTSCREEN_BLOCKED", .raiseViolation "Screenshots are disabled",
         .scheduleShow 2000]
    else if e.key == "Meta" || e.key == "OS" then [.hideInstantly]
    else []

/-- The anonymous keyup listener (source lines 227–240) as an effect
trace: on PrintScreen it hides, attempts the clipboard overwrite and
schedules the 2000 ms restore; on Meta/OS release it schedules a 1000 ms
restore; it emits no event and raises no violation. -/
def handleKeyUpEffects (e : KeyEvent) (clip : Except String Unit) : List Effect :=
  if e.key == "PrintScreen" then
    [.hideInstantly] ++ clipboardOverwriteAttempt clip ++ [.scheduleShow 2000]
  else if e.key == "Meta" || e.key == "OS" then [.scheduleShow 1000]
  else []

/-- C5 counterexample.  On PrintScreen keyup the layer hides, attempts the
clipboard overwrite and schedules the 2000 ms restore — but, contrary to
the claim, it does NOT emit `PRINTSCREEN_BLOCKED` and does NOT raise the
"Screenshots are disabled" violation. -/
theorem printScreen_keyup_counterexample :
    handleKeyUpEffects ⟨"PrintScreen", false, false, false⟩ (.ok ()) =
        [.hideInstantly, .clipboardAttempt, .scheduleShow 2000] ∧
      Effect.emit "PRINTSCREEN_BLOCKED" ∉
        handleKeyUpEffects ⟨"PrintScreen", false, false, false⟩ (.ok ()) ∧
      Effect.raiseViolation "Screenshots are disabled" ∉
        handleKeyUpEffects ⟨"PrintScreen", false, false, false⟩ (.ok ()) := by
  refine ⟨rfl, ?_, ?_⟩ <;> decide

/-- C5 amended.  On PrintScreen keydown the layer prevents the default,
hides instantly, makes the best-effort clipboard overwrite whose failure
is swallowed (the trace is identical for a succeeding and a failing
write, and nothing is surfaced or thrown), emits `PRINTSCREEN_BLOCKED`,
raises "Screenshots are disabled" and schedules the delayed show at
2000 ms; on PrintScreen keyup it only hides, attempts the clipboard
overwrite (failure equally swallowed) and schedules the 2000 ms delayed
show — no event emission, no violation.  This holds for any modifier
state. -/
theorem printScreen_handling_amended (c m s : Bool) (clip : Except String Unit) :
    handleKeyDownEffects ⟨"PrintScreen", c, m, s⟩ clip =
        [.preventDefault, .stopPropagation, .hideInstantly, .clipboardAttempt,
         .emit "PRINTSCREEN_BLOCKED", .raiseViolation "Screenshots are disabled",
         .scheduleShow 2000] ∧
      handleKeyUpEffects ⟨"PrintScreen", c, m, s⟩ clip =
        [.hideInstantly, .clipboardAttempt, .scheduleShow 2000] := by
  cases clip <;> cases c <;> cases m <;> cases s <;> exact ⟨rfl, rfl⟩


/-! ## DevTools detection (`checkDevTools`, source lines 292–337) -/

/-- The raw quantities one poll of `checkDevTools` reads: viewport
geometry in pixels and the two timing probes in milliseconds. -/
structure Measurement where
  outerWidth : Int
  innerWidth : Int
  outerHeight : Int
  innerHeight : Int
  consoleDuration : Int
  debugDuration : Int
  deriving DecidableEq, Repr

/-- Method 1 — geometry: outer minus inner viewport exceeds the 160 px
threshold on either axis. -/
def devToolsOpen1 (m : Measurement) : Bool :=
  decide (m.outerWidth - m.innerWidth > 160) ||
    decide (m.outerHeight - m.innerHeight > 160)

/-- Method 2 — console timing: the formatted write + clear took more than
100 ms. -/
def devToolsOpen2 (m : Measurement) : Bool :=
  decide (m.consoleDuration > 100)

/-- Method 3 — debugger-pause timing: the checkpoint took more than
100 ms. -/
def devToolsOpen3 (m : Measurement) : Bool :=
  decide (m.debugDuration > 100)

/-- `isOpen = devToolsOpen1 || devToolsOpen2 || devToolsOpen3`. -/
def devToolsVerdict (m : Measurement) : Bool :=
  devToolsOpen1 m || devToolsOpen2 m || devToolsOpen3 m

/-- `devToolsOpen1 ? 'size' : devToolsOpen2 ? 'console' : 'debugger'` —
the first true signal in priority order geometry > timing > pause. -/
def detectMethod (m : Measurement) : String :=
  if devToolsOpen1 m then "size"
  else if devToolsOpen2 m then "console"
  else "debugger"

/-- Events the devtools layer can emit. -/
inductive DevEvent where
  | devtoolsDetected (method : String)
  deriving DecidableEq, Repr

/-- One poll of `checkDevTools` on state `devToolsOpen`: emit
`DEVTOOLS_DETECTED{method}` exactly on the false-to-true transition, fall
back silently on the true-to-false transition, otherwise leave the state
alone. -/
def checkDevTools (devToolsOpen : Bool) (m : Measurement) : Bool × List DevEvent :=
  let isOpen := devToolsVerdict m
  if isOpen && !devToolsOpen then
    (true, [.devtoolsDetected (detectMethod m)])
  else if !isOpen && devToolsOpen then
    (false, [])
  else (devToolsOpen, [])

/-- A run of consecutive 1000 ms polls: thread the `devToolsOpen` state
through and collect emitted events in order. -/
def runPolls : Bool → List Measurement → Bool × List DevEvent
  | b, [] => (b, [])
  | b, m :: rest =>
    let step := checkDevTools b m
    let tail := runPolls step.1 rest
    (tail.1, step.2 ++ tail.2)

lemma runPolls_append (b : Bool) (l1 l2 : List Measurement) :
    runPolls b (l1 ++ l2) =
      ((runPolls (runPolls b l1).1 l2).1,
        (runPolls b l1).2 ++ (runPolls (runPolls b l1).1 l2).2) := by
  induction l1 generalizing b with
  | nil => simp [runPolls]
  | cons m rest ih => simp [runPolls, ih, List.append_assoc]

lemma runPolls_allFalse_from_false (l : List Measurement)
    (h : ∀ m ∈ l, devToolsVerdict m = false) :
    runPolls false l = (false, []) := by
  induction l with
  | nil => rfl
  | cons m rest ih =>
    have hm := h m (by simp)
    have hrest := ih fun x hx => h x (by simp [hx])
    simp [runPolls, checkDevTools, hm, hrest]

lemma runPolls_allTrue_from_true (l : List Measurement)
    (h : ∀ m ∈ l, devToolsVerdict m = true) :
    runPolls true l = (true, []) := by
  induction l with
  | nil => rfl
  | cons m rest ih =>
    have hm := h m (by simp)
    have hrest := ih fun x hx => h x (by simp [hx])
    simp [runPolls, checkDevTools, hm, hrest]

lemma runPolls_allFalse_from_true (l : List Measurement)
    (h : ∀ m ∈ l, devToolsVerdict m = false) :
    (runPolls true l).2 = [] := by
  cases l with
  | nil => rfl
  | cons m rest =>
    have hm := h m (by simp)
    have hrest := runPolls_allFalse_from_false rest fun x hx => h x (by simp [hx])
    simp [runPolls, checkDevTools, hm, hrest]

/-- C6 — DevTools verdict is edge-triggered.  Starting un-suspected, for
any poll sequence consisting of a (possibly empty) all-false prefix, a
non-empty run of consecutive polls whose OR-verdict is held true, and a
(possibly empty) all-false tail, exactly one `DEVTOOLS_DETECTED` event is
emitted: at the first poll of the run (the 0→1 transition), carrying the
method of the first true signal of that poll in priority order
geometry (`size`) > console timing (`console`) > debugger pause
(`debugger`); the 1→0 transition at the start of the tail updates the
state silently, with no event. -/
theorem devtools_edge_triggered (pre : List Measurement) (m : Measurement)
    (run post : List Measurement)
    (hpre : ∀ x ∈ pre, devToolsVerdict x = false)
    (hm : devToolsVerdict m = true)
    (hrun : ∀ x ∈ run, devToolsVerdict x = true)
    (hpost : ∀ x ∈ post, devToolsVerdict x = false) :
    (runPolls false (pre ++ (m :: run) ++ post)).2 =
      [.devtoolsDetected (detectMethod m)] := by
  have h1 : runPolls false pre = (false, []) := runPolls_allFalse_from_false pre hpre
  have h2 : runPolls true run = (true, []) := runPolls_allTrue_from_true run hrun
  have h3 : (runPolls true post).2 = [] := runPolls_allFalse_from_true post hpost
  rw [runPolls_append, runPolls_append, h1]
  simp [runPolls, checkDevTools, hm, h2, h3]

/-- Concrete measurements for the C6 witness. -/
def quietMeasurement : Measurement := ⟨1280, 1280, 800, 790, 1, 0⟩

/-- A poll where only the console-timing signal trips. -/
def consoleSlowMeasurement : Measurement := ⟨1280, 1280, 800, 790, 250, 0⟩

/-- A poll where the geometry signal trips (and the pause signal too). -/
def dockedDevtoolsMeasurement : Measurement := ⟨1280, 1280, 800, 500, 1, 150⟩

/-- Witness for C6 at concrete polls: one quiet poll, then a held-true run
of three suspicious polls (first one console-slow, so the single event
names `console`), then two quiet polls. -/
theorem devtools_edge_triggered_witness :
    (runPolls false
        ([quietMeasurement] ++
          (consoleSlowMeasurement ::
            [dockedDevtoolsMeasurement, consoleSlowMeasurement]) ++
          [quietMeasurement, quietMeasurement])).2 =
      [.devtoolsDetected "console"] :=
  devtools_edge_triggered [quietMeasurement] consoleSlowMeasurement
    [dockedDevtoolsMeasurement, consoleSlowMeasurement]
    [quietMeasurement, quietMeasurement]
    (by decide) (by decide) (by decide) (by decide)


/-! ## Delayed show-content timer (`showContent`, source lines 90–98) -/

/-- The style cell of the protected element that the visibility controller
mutates (`contentRef.current.style`). -/
structure ContentStyle where
  opacity : String
  filter : String
  deriving DecidableEq, Repr

/-- The guard `if (contentRef?.current)` that `showContent` evaluates at
CALL time: the 100 ms restore timer is scheduled iff the content reference
is live at that moment. -/
def showContentSchedulesTimer (current : Option ContentStyle) : Bool :=
  current.isSome

/-- The body of the scheduled 100 ms timer:
`contentRef.current.style.opacity = '1'; contentRef.current.style.filter = 'none'`.
It dereferences `contentRef.current` WITHOUT re-checking liveness, so when
the surface has been torn down by the time the timer fires (React nulls
the ref on unmount) the callback throws instead of being a no-op. -/
def showContentTimerCallback (currentAtFire : Option ContentStyle) :
    Except String ContentStyle :=
  match currentAtFire with
  | some _ => .ok ⟨"1", "none"⟩
  | none => .error "TypeError: contentRef.current is null"

/-- C7 — the code, evaluated at the failing scenario.  A `showContent`
call with a live surface schedules the restore timer; if the surface is
torn down before the 100 ms timer fires, the callback throws a TypeError
rather than being a liveness-checked no-op (the claim's required
behaviour); with the surface still live it restores opacity and filter. -/
theorem showTimer_dead_surface_throws :
    showContentSchedulesTimer (some ⟨"0", "blur(50px)"⟩) = true ∧
      showContentTimerCallback none =
        .error "TypeError: contentRef.current is null" ∧
      showContentTimerCallback (some ⟨"0", "blur(50px)"⟩) = .ok ⟨"1", "none"⟩ :=
  ⟨rfl, rfl, rfl⟩

/-! ## Keyboard layer attach/detach (effect at source lines 147–245) -/

/-- A DOM listener registration as identified by `removeEventListener`:
event name, handler function identity, capture flag. -/
structure DomListener where
  eventName : String
  handlerId : String
  capture : Bool
  deriving DecidableEq, Repr

/-- Enabling the keyboard layer attaches two capture-phase listeners:
`keydown` with the named `handleKeyDown`, and `keyup` with an anonymous
arrow function (which therefore has no name it could later be removed
by). -/
def keyboardLayerAttach (ls : List DomListener) : List DomListener :=
  ls ++ [⟨"keydown", "handleKeyDown", true⟩,
         ⟨"keyup", "anonymousKeyupArrow", true⟩]

/-- `document.removeEventListener(name, handler, capture)`: drops the
matching registration. -/
def removeListener (ls : List DomListener) (eventName handlerId : String)
    (capture : Bool) : List DomListener :=
  ls.filter fun l =>
    !(l.eventName == eventName && l.handlerId == handlerId && l.capture == capture)

/-- The keyboard layer effect cleanup (source lines 242–244): it removes
ONLY the keydown listener. -/
def keyboardLayerCleanup (ls : List DomListener) : List DomListener :=
  removeListener ls "keydown" "handleKeyDown" true

/-- C8 — the code, evaluated at the failing scenario.  Enabling the
keyboard layer and then running its cleanup leaves the anonymous keyup
listener attached: the cleanup does not remove every listener the layer
attached, contrary to the claim. -/
theorem keyboardLayer_cleanup_leaks_keyup :
    keyboardLayerCleanup (keyboardLayerAttach []) =
        [⟨"keyup", "anonymousKeyupArrow", true⟩] ∧
      keyboardLayerCleanup (keyboardLayerAttach []) ≠ [] := by
  refine ⟨rfl, ?_⟩ ; decide

/-! ## Signed-URL combination probing (`testAccess`, `src/unnamed/part_000`) -/

/-- The signed URL `cloudinary.url(publicId, {resource_type, type,
sign_url: true, secure: true})` produces, abstracted to its scoping
parameters. -/
structure SignedUrl where
  publicId : String
  resourceType : String
  deliveryType : String
  signed : Bool
  secure : Bool
  deriving DecidableEq, Repr

/-- URL generation for one combination. -/
def cloudinarySignedUrl (publicId resourceType deliveryType : String) : SignedUrl :=
  ⟨publicId, resourceType, deliveryType, true, true⟩

/-- One probe attempt: the combination tried, the signed URL generated for
it, and whether the fetch of that URL returned HTTP 200. -/
structure ProbeOutcome where
  resourceType : String
  deliveryType : String
  url : SignedUrl
  success : Bool
  deriving DecidableEq, Repr

/-- `const resourceTypes = ['image', 'raw', 'auto']`. -/
def resourceTypes : List String := ["image", "raw", "auto"]

/-- `const types = ['upload', 'authenticated']`. -/
def deliveryTypes : List String := ["upload", "authenticated"]

/-- The probe loop of `testAccess`: resource-type outer loop,
delivery-type inner loop; for each pair generate the signed URL and fetch
it.  `fetchStatus` gives the HTTP status of the fetch for each pair
(`none` for a network error, which the script logs and treats as not
successful); success is recorded exactly for status 200. -/
def testAccess (publicId : String)
    (fetchStatus : String → String → Option Nat) : List ProbeOutcome :=
  resourceTypes.flatMap fun rType =>
    deliveryTypes.map fun dType =>
      { resourceType := rType, deliveryType := dType,
        url := cloudinarySignedUrl publicId rType dType,
        success := fetchStatus rType dType == some 200 }

/-- C9 — Signed-URL combination probing.  The probe attempts exactly the
3×2 = 6 combinations {image, raw, auto} × {upload, authenticated}, in
resource-type-outer / delivery-type-inner order, generates a signed URL
for each pair, and records success exactly for those fetches that return
HTTP status 200. -/
theorem signedUrl_probe_exhaustive (publicId : String)
    (fetchStatus : String → String → Option Nat) :
    ((testAccess publicId fetchStatus).map fun r => (r.resourceType, r.deliveryType)) =
        [("image", "upload"), ("image", "authenticated"),
         ("raw", "upload"), ("raw", "authenticated"),
         ("auto", "upload"), ("auto", "authenticated")] ∧
      ∀ r ∈ testAccess publicId fetchStatus,
        r.url = cloudinarySignedUrl publicId r.resourceType r.deliveryType ∧
        (r.success = true ↔ fetchStatus r.resourceType r.deliveryType = some 200) := by
  constructor
  · rfl
  · intro r hr
    simp only [testAccess, resourceTypes, deliveryTypes, List.flatMap_cons, List.flatMap_nil, List.map_cons, List.map_nil,
      List.append_nil, List.cons_append, List.nil_append, List.mem_cons,
      List.not_mem_nil, or_false] at hr
    rcases hr with h | h | h | h | h | h <;> subst h <;>
      exact ⟨rfl, by simp⟩

/-- Fetch behaviour for the C9 witness: only the (raw, authenticated)
combination answers 200, everything else 401. -/
def witFetchStatus : String → String → Option Nat :=
  fun rType dType =>
    if rType = "raw" ∧ dType = "authenticated" then some 200 else some 401

/-- Witness for C9 at a concrete resource and fetch behaviour: the probe
emits all six combinations in order, and the (raw, authenticated) outcome
is recorded successful. -/
theorem signedUrl_probe_exhaustive_witness :
    ((testAccess "doc1" witFetchStatus).map fun r => (r.resourceType, r.deliveryType)) =
        [("image", "upload"), ("image", "authenticated"),
         ("raw", "upload"), ("raw", "authenticated"),
         ("auto", "upload"), ("auto", "authenticated")] ∧
      ({ resourceType := "raw", deliveryType := "authenticated",
         url := cloudinarySignedUrl "doc1" "raw" "authenticated",
         success := true } : ProbeOutcome).success = true :=
  ⟨(signedUrl_probe_exhaustive "doc1" witFetchStatus).1,
    ((signedUrl_probe_exhaustive "doc1" witFetchStatus).2
        { resourceType := "raw", deliveryType := "authenticated",
          url := cloudinarySignedUrl "doc1" "raw" "authenticated",
          success := true } (by decide)).2.mpr (by decide)⟩

/-! ## Focus layer (source lines 250–284) -/

/-- The three focus-layer inputs: `window` focus, `window` blur, and
`visibilitychange` with the current `document.hidden`. -/
inductive FocusEvent where
  | focus
  | blur
  | visibilityChange (hidden : Bool)
  deriving DecidableEq, Repr

/-- The `showContent` call as used by the focus layer: schedules the
100 ms restore iff the content reference is live at call time. -/
def showContentEffects (refLive : Bool) : List Effect :=
  if refLive then [.scheduleShow 100] else []

/-- One focus-layer event handler: `handleFocus`, `handleBlur`, or
`handleVisibilityChange`.  Each handler writes `isFocused` from its own
signal alone — none of them consults the other condition (window focus
state vs. tab visibility). -/
def focusStep (s : SecState) (refLive : Bool) : FocusEvent → SecState × List Effect
  | .focus => ({ s with isFocused := true }, showContentEffects refLive)
  | .blur => ({ s with isFocused := false }, [.hideInstantly, .emit "FOCUS_LOST"])
  | .visibilityChange true =>
    ({ s with isFocused := false }, [.hideInstantly, .emit "TAB_HIDDEN"])
  | .visibilityChange false =>
    ({ s with isFocused := true }, showContentEffects refLive)

/-- A sequence of focus-layer events applied to the state. -/
def runFocusEvents (s : SecState) (refLive : Bool) (es : List FocusEvent) : SecState :=
  es.foldl (fun st e => (focusStep st refLive e).1) s

/-- C10 — `isFocused` is last-signal-wins, not the conjunction of
window-focused and tab-visible.  From any state, a document-becomes-
visible `visibilitychange` sets `isFocused = true` and (with a live
surface) schedules the delayed show, and a window `focus` does the same —
each regardless of what the other signal last said; a `blur` sets it
false.  In particular, after any event history whose last event is a
`blur` (so a blur occurred after the last focus), a document-becomes-
visible event still yields `isFocused = true`. -/
theorem isFocused_last_signal_wins (s : SecState) (live : Bool) :
    ((focusStep s live (.visibilityChange false)).1.isFocused = true ∧
      (focusStep s live .focus).1.isFocused = true ∧
      (focusStep s live .blur).1.isFocused = false) ∧
    (live = true →
      (focusStep s live (.visibilityChange false)).2 = [.scheduleShow 100] ∧
      (focusStep s live .focus).2 = [.scheduleShow 100]) ∧
    (∀ es : List FocusEvent,
      (focusStep (runFocusEvents s live (es ++ [.blur])) live
          (.visibilityChange false)).1.isFocused = true) := by
  refine ⟨⟨rfl, rfl, rfl⟩, ?_, fun es => rfl⟩
  intro hlive
  subst hlive
  exact ⟨rfl, rfl⟩

/-- Witness for C10 at concrete inputs: blur then tab-becomes-visible
leaves `isFocused = true`, and the visible event schedules the 100 ms
delayed show. -/
theorem isFocused_last_signal_wins_witness :
    (focusStep (runFocusEvents initialSecState true [.blur]) true
        (.visibilityChange false)).1.isFocused = true ∧
      (focusStep initialSecState true (.visibilityChange false)).2 =
        [.scheduleShow 100] :=
  ⟨(isFocused_last_signal_wins initialSecState true).2.2 [],
    ((isFocused_last_signal_wins initialSecState true).2.1 rfl).1⟩


end SecurePdfViewer
